import Mathlib

/-!
Verification of the whisper_server.py / language_detector.py backend.
The Python source is shallowly embedded: decoding-option construction,
model loading, endpoint control flow and the confidence classifier are
translated into executable Lean definitions, and the behavioural claims
are proved about them.
-/

namespace WhisperServer

/-! ## Decoding options (WhisperSTT.transcribe_audio, lines 174-228) -/

/-- Mirrors the temperature value: `0.0 if high_accuracy else [0.0, 0.2, 0.4, 0.6, 0.8]`. -/
inductive Temperature where
  | scalar : ℚ → Temperature
  | schedule : List ℚ → Temperature
  deriving DecidableEq, Repr

/-- The full options dictionary passed to `self.current_model.transcribe`. -/
structure DecodeOptions where
  language : String
  task : String
  temperature : Temperature
  fp16 : Bool
  condition_on_previous_text : Bool
  initial_prompt : String
  suppress_tokens : List Int
  beam_size : Nat
  best_of : Nat
  patience : ℚ
  compression_ratio_threshold : ℚ
  logprob_threshold : ℚ
  no_speech_threshold : ℚ
  deriving DecidableEq, Repr

/-- The prompts table of `WhisperSTT._get_language_prompt`. -/
def language_prompts : List (String × String) :=
  [("en", "The following is a clear English speech with proper pronunciation and grammar."),
   ("id", "Berikut adalah percakapan dalam bahasa Indonesia yang jelas dengan pengucapan dan tata bahasa yang benar."),
   ("ar", "التالي هو خطاب واضح باللغة العربية مع النطق والقواعد الصحيحة. قرآن كريم، آيات، سورة."),
   ("ms", "Berikut adalah perbualan dalam bahasa Melayu yang jelas dengan sebutan dan tatabahasa yang betul."),
   ("zh", "以下是清晰的中文语音，具有正确的发音和语法。"),
   ("ja", "以下は明確な日本語の音声で、正しい発音と文法を持っています。"),
   ("ko", "다음은 올바른 발음과 문법을 가진 명확한 한국어 음성입니다.")]

/-- `WhisperSTT._get_language_prompt`: `prompts.get(language, default)`. -/
def get_language_prompt (language : String) : String :=
  (language_prompts.lookup language).getD
    "The following is clear speech with proper pronunciation."

/-- The large-model tier test of line 185. -/
def largeModels : List String := ["large", "large-v1", "large-v2", "large-v3"]

/-- The medium-model tier test of line 196. -/
def mediumModels : List String := ["medium", "medium.en"]

/-- Builds `{**base_options, tier fields}` for a tier given the six tier numbers.
`cuda` stands for `torch.cuda.is_available()`. -/
def mkOptions (language : String) (high_accuracy cuda : Bool)
    (bs bo : Nat) (pat crt lpt nst : ℚ) : DecodeOptions :=
  { language := language
    task := "transcribe"
    temperature := if high_accuracy then .scalar 0 else .schedule [0, 0.2, 0.4, 0.6, 0.8]
    fp16 := cuda
    condition_on_previous_text := true
    initial_prompt := get_language_prompt language
    suppress_tokens := [-1]
    beam_size := bs
    best_of := bo
    patience := pat
    compression_ratio_threshold := crt
    logprob_threshold := lpt
    no_speech_threshold := nst }

/-- Tier selection of lines 185-217: large, medium, and all other model sizes. -/
def buildTierOptions (model_size language : String) (high_accuracy cuda : Bool) :
    DecodeOptions :=
  if model_size ∈ largeModels then
    mkOptions language high_accuracy cuda 5 5 2 2.4 (-1) 0.3
  else if model_size ∈ mediumModels then
    mkOptions language high_accuracy cuda 3 3 1.5 2.4 (-1) 0.4
  else
    mkOptions language high_accuracy cuda 1 1 1 2.4 (-1) 0.5

/-- Language-specific adjustments of lines 219-228. -/
def adjustForLanguage (language : String) (o : DecodeOptions) : DecodeOptions :=
  if language = "ar" then
    { o with no_speech_threshold := 0.2
             compression_ratio_threshold := 3
             logprob_threshold := -1.2 }
  else if language = "id" then
    { o with no_speech_threshold := 0.3
             compression_ratio_threshold := 2.8 }
  else o

/-- The options actually passed to `transcribe` for an effective language. -/
def transcribeOptions (model_size language : String) (high_accuracy cuda : Bool) :
    DecodeOptions :=
  adjustForLanguage language (buildTierOptions model_size language high_accuracy cuda)

/-- Resolution of the effective language (lines 169-171): `None` or `auto`
falls back to the detected language. -/
def effectiveLanguage (language : Option String) (detected : String) : String :=
  match language with
  | none => detected
  | some l => if l = "auto" then detected else l

/-! ## Model table and loading (WhisperSTT.__init__ and _load_model) -/

/-- The twelve keys of `WhisperSTT.models` (lines 35-48). -/
def modelKeys : List String :=
  ["tiny", "tiny.en", "base", "base.en", "small", "small.en",
   "medium", "medium.en", "large", "large-v1", "large-v2", "large-v3"]

/-- The keys of `WhisperSTT.supported_languages` (lines 53-62). -/
def supportedLanguages : List String :=
  ["en", "id", "ar", "ms", "zh", "ja", "ko", "auto"]

/-- The mutable per-instance state of `WhisperSTT`: which entries of
`self.models` are loaded, `self.model_size`, and the name of the model
`self.current_model` points to (`none` for Python `None`). -/
structure WhisperState where
  loaded : List String
  model_size : String
  current : Option String
  deriving DecidableEq, Repr

/-- The fallback list of `_load_model` line 85. -/
def fallback_models : List String := ["base", "tiny", "small"]

/-- The fallback loop of lines 85-94: skip the failing size, attempt each
remaining name with the library loader `loadOk`, stop at the first success.
Returns the attempted names and the successful one, if any. -/
def fallbackSearch (loadOk : String → Bool) (skip : String) :
    List String → List String × Option String
  | [] => ([], none)
  | f :: fs =>
    if f = skip then fallbackSearch loadOk skip fs
    else if loadOk f then ([f], some f)
    else
      let r := fallbackSearch loadOk skip fs
      (f :: r.1, r.2)

/-- `WhisperSTT._load_model`: substitute `base` for an unknown size, load the
model through the library (abstracted as `loadOk`) unless already cached,
fall back on failure, then set `current_model` and `model_size`. Returns the
new state and the list of names passed to `whisper.load_model`. -/
def load_model (loadOk : String → Bool) (st : WhisperState) (model_size : String) :
    WhisperState × List String :=
  let ms := if model_size ∈ modelKeys then model_size else "base"
  if ms ∈ st.loaded then
    ({ st with model_size := ms, current := some ms }, [])
  else if loadOk ms then
    ({ loaded := ms :: st.loaded, model_size := ms, current := some ms }, [ms])
  else
    match fallbackSearch loadOk ms fallback_models with
    | (attempts, some fb) =>
      ({ loaded := fb :: st.loaded, model_size := fb, current := some fb },
        ms :: attempts)
    | (attempts, none) =>
      ({ st with model_size := ms, current := none }, ms :: attempts)

/-- The model-size validation of the `/transcribe` endpoint (lines 335-338):
an unknown size is replaced by `base` before transcription. -/
def validateModelSize (model_size : String) : String :=
  if model_size ∈ modelKeys then model_size else "base"

/-- The language validation of the endpoint (lines 340-342). -/
def validateLanguage (language : String) : String :=
  if language ∈ supportedLanguages then language else "auto"

/-! ## Audio preprocessing (WhisperSTT.preprocess_audio, lines 103-128) -/

/-- One librosa operation applied to the audio signal. A `preemphasis none`
is a call with the library default coefficient. -/
inductive AudioOp where
  | normalize : AudioOp
  | preemphasis : Option ℚ → AudioOp
  | trim : Nat → AudioOp
  deriving DecidableEq, Repr

/-- The operation pipeline of `preprocess_audio` for each mode. -/
def preprocess_audio (preserve_full_audio : Bool) : List AudioOp :=
  if preserve_full_audio then
    [.normalize, .preemphasis (some 0.95), .trim 10]
  else
    [.normalize, .trim 20, .preemphasis none]

/-- ASCII lowercasing of one character, as Python str.lower acts on the
ASCII paths the claim concerns. -/
def asciiLower (c : Char) : Char :=
  if 65 ≤ c.toNat ∧ c.toNat ≤ 90 then Char.ofNat (c.toNat + 32) else c

/-- Lowercase a string character by character. -/
def strLower (s : String) : String :=
  ⟨s.data.map asciiLower⟩

/-- Whether the first list is an initial segment of the second. -/
def charsStartWith : List Char → List Char → Bool
  | [], _ => true
  | _ :: _, [] => false
  | a :: as, b :: bs => a == b && charsStartWith as bs

/-- Python substring test `needle in hay` on character lists. -/
def charsContain (needle : List Char) : List Char → Bool
  | [] => needle.isEmpty
  | c :: t => charsStartWith needle (c :: t) || charsContain needle t

/-- Python substring test `needle in hay` on strings. -/
def strContains (hay needle : String) : Bool :=
  charsContain needle.data hay.data

/-- The `preserve_full` test of line 159: requested language is ar, or the
lowercased path contains `quran` or `surah`. -/
def preserveFull (language : Option String) (path : String) : Bool :=
  language == some "ar" || strContains (strLower path) "quran"
    || strContains (strLower path) "surah"

/-! ## Language detection (WhisperSTT.detect_language, lines 130-148) -/

/-- One step of Python `max(probs, key=probs.get)`: replace the running best
only on a strictly larger value, so ties keep the earlier key. -/
def pickBetter (best q : String × ℚ) : String × ℚ :=
  if best.2 < q.2 then q else best

/-- `WhisperSTT.detect_language` on the probability map returned by the
library, as an insertion-ordered association list: the argmax key with its
probability; the except-branch default `(en, 0.5)` for an empty map. -/
def detect_language (probs : List (String × ℚ)) : String × ℚ :=
  match probs with
  | [] => ("en", 0.5)
  | p :: ps => ps.foldl pickBetter p

/-! ## Segment aggregation (WhisperSTT.transcribe_audio, lines 236-272) -/

/-- A segment dictionary as produced by the library: `avg_logprob` and
`no_speech_prob` are fetched with `.get(key, 0.0)`, hence optional. -/
structure RawSegment where
  start : ℚ
  seg_end : ℚ
  text : String
  avg_logprob : Option ℚ
  no_speech_prob : Option ℚ
  deriving DecidableEq, Repr

/-- A processed segment of the enhanced result. -/
structure OutSegment where
  start : ℚ
  seg_end : ℚ
  text : String
  confidence : ℚ
  no_speech_prob : ℚ
  deriving DecidableEq, Repr

/-- Python whitespace for str.strip and str.split. -/
def isWS (c : Char) : Bool :=
  c == ' ' || c == '\t' || c == '\n' || c == '\r'

/-- Python str.strip: drop whitespace at both ends. -/
def pyStrip (s : String) : String :=
  ⟨((s.data.dropWhile isWS).reverse.dropWhile isWS).reverse⟩

/-- Python len(text.split()): whitespace-separated words, empties dropped. -/
def pyWordCount (s : String) : Nat :=
  ((s.data.splitOnP isWS).filter (fun w => w ≠ [])).length

/-- The loop guard of line 241: `if segment[text].strip():`. -/
def keepSegment (s : RawSegment) : Bool :=
  pyStrip s.text != ""

/-- The dictionary built for one kept segment (lines 243-249). -/
def mkOut (s : RawSegment) : OutSegment :=
  { start := s.start
    seg_end := s.seg_end
    text := pyStrip s.text
    confidence := s.avg_logprob.getD 0
    no_speech_prob := s.no_speech_prob.getD 0 }

/-- One iteration of the aggregation loop over `(segments, total, count)`. -/
def segStep (acc : List OutSegment × ℚ × Nat) (s : RawSegment) :
    List OutSegment × ℚ × Nat :=
  if keepSegment s then
    (acc.1 ++ [mkOut s], acc.2.1 + s.avg_logprob.getD 0, acc.2.2 + 1)
  else acc

/-- The whole aggregation loop of lines 236-251. -/
def process_segments (segs : List RawSegment) : List OutSegment × ℚ × Nat :=
  segs.foldl segStep ([], 0, 0)

/-- Line 254: `total_confidence / segment_count if segment_count > 0 else 0.0`. -/
def overall_confidence (segs : List RawSegment) : ℚ :=
  let r := process_segments segs
  if r.2.2 > 0 then r.2.1 / (r.2.2 : ℚ) else 0

/-- Line 271: `len(text.split()) / max(segment_count, 1)`. -/
def words_per_segment (text : String) (count : Nat) : ℚ :=
  (pyWordCount text : ℚ) / ((max count 1 : ℕ) : ℚ)

/-! ## The /transcribe endpoint (lines 323-467) -/

/-- Python os.path.splitext on a bare file name: the suffix from the last
dot, provided some character before that dot is not itself a dot (so purely
leading dots yield no extension). -/
def lastDotSuffix : List Char → Option (List Char)
  | [] => none
  | c :: t =>
    match lastDotSuffix t with
    | some e => some e
    | none => if c == '.' then some (c :: t) else none

/-- The extension part of os.path.splitext(name). -/
def extOf (name : String) : String :=
  match lastDotSuffix name.data with
  | none => ""
  | some e =>
    if (name.data.take (name.data.length - e.length)).any (fun c => c != '.') then
      ⟨e⟩
    else ""

/-- Where an unexpected exception is raised inside the processing block of
the handler, for the 500 paths of the inner `except`. -/
inductive RaisePoint where
  | afterWrite
  | beforeTranscribe
  deriving DecidableEq, Repr

/-- The behaviour of the wrapped libraries during one request: whether
pydub conversion succeeds, whether `transcribe_audio` returns a result, and
an optional unexpected exception. -/
structure EndpointEnv where
  conversionOk : Bool
  transcribeOk : Bool
  raiseAt : Option RaisePoint
  deriving DecidableEq, Repr

/-- The form fields of one /transcribe request. -/
structure TranscribeRequest where
  filename : String
  contentSize : Nat
  language : String
  model_size : String
  deriving DecidableEq, Repr

/-- The observable outcome of one request: the JSON response essentials,
the temp files created by mkstemp, the `temp_files` list, the files passed
to `safe_delete_file` by the `finally` block, and whether transcription
was attempted. -/
structure EndpointResult where
  status : Nat
  success : Bool
  error : Option String
  created : List Nat
  temp_files : List Nat
  deleted : List Nat
  transcribeCalled : Bool
  modelUsed : String
  deriving DecidableEq, Repr

/-- Lines 356-358 and 375: the lowercased extension, defaulting to wav when
empty, and the test `file_extension not in [.wav, .flac]` deciding whether
a converted wav temp file is needed. -/
def fileExtension (filename : String) : String :=
  let ext0 := strLower (extOf filename)
  if ext0 = "" then ".wav" else ext0

/-- Whether the upload must be converted to wav (line 375). -/
def needsConversion (filename : String) : Bool :=
  fileExtension filename ∉ [".wav", ".flac"]

/-- The `finally` block of lines 464-467: `safe_delete_file` on every
element of `temp_files`, whatever the exit path. -/
def runFinally (r : EndpointResult) : EndpointResult :=
  { r with deleted := r.temp_files }

/-- Lines 418-446: call `transcribe_audio` and answer 200 or 400. -/
def finishTranscribe (env : EndpointEnv) (ms : String)
    (created temps : List Nat) : EndpointResult :=
  if env.transcribeOk then
    ⟨200, true, none, created, temps, [], true, ms⟩
  else
    ⟨400, false, some "Transcription failed", created, temps, [], true, ms⟩

/-- The `/transcribe` handler body. Temp file 0 is the uploaded copy,
temp file 1 the converted wav. -/
def transcribe_endpoint (req : TranscribeRequest) (env : EndpointEnv) :
    EndpointResult :=
  runFinally (
    let ms := validateModelSize req.model_size
    if req.contentSize > 25 * 1024 * 1024 then
      ⟨400, false, some "File too large", [], [], [], false, ms⟩
    else
      if env.raiseAt = some .afterWrite then
        ⟨500, false, some "Processing failed", [0], [0], [], false, ms⟩
      else if needsConversion req.filename then
        if ¬ env.conversionOk then
          ⟨400, false, some "Audio conversion failed", [0, 1], [0, 1], [], false, ms⟩
        else if env.raiseAt = some .beforeTranscribe then
          ⟨500, false, some "Processing failed", [0, 1], [0, 1], [], false, ms⟩
        else finishTranscribe env ms [0, 1] [0, 1]
      else if env.raiseAt = some .beforeTranscribe then
        ⟨500, false, some "Processing failed", [0], [0], [], false, ms⟩
      else finishTranscribe env ms [0] [0])

/-- The effect of one /transcribe request on the server-global
`whisper_stt` state: `transcribe_audio` line 154 reloads only when the
validated size differs from the current one. Returns the new state and
the names passed to `whisper.load_model`. -/
def serverHandleTranscribe (loadOk : String → Bool) (st : WhisperState)
    (req : TranscribeRequest) : WhisperState × List String :=
  let ms := validateModelSize req.model_size
  if ms ≠ st.model_size then load_model loadOk st ms else (st, [])

/-! ## LanguageDetector (language_detector.py) -/

/-- The thresholds dictionary of `LanguageDetector.__init__`. -/
def confidence_thresholds : List (String × ℚ) :=
  [("high", 0.8), ("medium", 0.6), ("low", 0.4)]

/-- Dictionary access `self.confidence_thresholds[k]`. -/
def thresholdOf (k : String) : ℚ :=
  (confidence_thresholds.lookup k).getD 0

/-- `LanguageDetector._get_confidence_level` (lines 56-65). -/
def get_confidence_level (confidence : ℚ) : String :=
  if confidence ≥ thresholdOf "high" then "high"
  else if confidence ≥ thresholdOf "medium" then "medium"
  else if confidence ≥ thresholdOf "low" then "low"
  else "very_low"

/-- The order of the four levels, for the monotonicity statement. -/
def levelRank (level : String) : Nat :=
  if level = "high" then 3
  else if level = "medium" then 2
  else if level = "low" then 1
  else 0

end WhisperServer

namespace WhisperServer

/-- Claim C1: tier selection of the decoding options in
`WhisperSTT.transcribe_audio`. For the four large model names the options
carry beam_size 5, best_of 5, patience 2.0, no_speech_threshold 0.3; for the
two medium names beam_size 3, best_of 3, patience 1.5, no_speech_threshold 0.4;
for every other model size beam_size 1, best_of 1, patience 1.0,
no_speech_threshold 0.5; all tiers use compression_ratio_threshold 2.4 and
logprob_threshold -1.0 before language-specific adjustment. -/
theorem c1_tier_options (m lang : String) (ha cuda : Bool) :
    ((m = "large" ∨ m = "large-v1" ∨ m = "large-v2" ∨ m = "large-v3") →
      (buildTierOptions m lang ha cuda).beam_size = 5 ∧
      (buildTierOptions m lang ha cuda).best_of = 5 ∧
      (buildTierOptions m lang ha cuda).patience = 2 ∧
      (buildTierOptions m lang ha cuda).no_speech_threshold = 0.3) ∧
    ((m = "medium" ∨ m = "medium.en") →
      (buildTierOptions m lang ha cuda).beam_size = 3 ∧
      (buildTierOptions m lang ha cuda).best_of = 3 ∧
      (buildTierOptions m lang ha cuda).patience = 1.5 ∧
      (buildTierOptions m lang ha cuda).no_speech_threshold = 0.4) ∧
    (¬ (m = "large" ∨ m = "large-v1" ∨ m = "large-v2" ∨ m = "large-v3") →
     ¬ (m = "medium" ∨ m = "medium.en") →
      (buildTierOptions m lang ha cuda).beam_size = 1 ∧
      (buildTierOptions m lang ha cuda).best_of = 1 ∧
      (buildTierOptions m lang ha cuda).patience = 1 ∧
      (buildTierOptions m lang ha cuda).no_speech_threshold = 0.5) ∧
    (buildTierOptions m lang ha cuda).compression_ratio_threshold = 2.4 ∧
    (buildTierOptions m lang ha cuda).logprob_threshold = -1 := by
  have hlarge : m ∈ largeModels ↔
      (m = "large" ∨ m = "large-v1" ∨ m = "large-v2" ∨ m = "large-v3") := by
    simp [largeModels]
  have hmed : m ∈ mediumModels ↔ (m = "medium" ∨ m = "medium.en") := by
    simp [mediumModels]
  unfold buildTierOptions
  by_cases hL : m ∈ largeModels
  · rw [if_pos hL]
    refine ⟨fun _ => ⟨rfl, rfl, rfl, rfl⟩, fun h => ?_, fun h _ => ?_, rfl, rfl⟩
    · exact absurd (hlarge.mp hL) (by rcases h with h | h <;> subst h <;> decide)
    · exact absurd (hlarge.mp hL) h
  · rw [if_neg hL]
    by_cases hM : m ∈ mediumModels
    · rw [if_pos hM]
      refine ⟨fun h => absurd (hlarge.mpr h) hL, fun _ => ⟨rfl, rfl, rfl, rfl⟩,
        fun _ h => absurd (hmed.mp hM) h, rfl, rfl⟩
    · rw [if_neg hM]
      exact ⟨fun h => absurd (hlarge.mpr h) hL, fun h => absurd (hmed.mpr h) hM,
        fun _ _ => ⟨rfl, rfl, rfl, rfl⟩, rfl, rfl⟩

/-- Claim C1 witness at concrete inputs. -/
theorem c1_tier_options_witness :
    (buildTierOptions "large-v3" "en" true false).beam_size = 5 ∧
    (buildTierOptions "base" "en" true false).beam_size = 1 := by
  refine ⟨((c1_tier_options "large-v3" "en" true false).1 (by decide)).1, ?_⟩
  exact (((c1_tier_options "base" "en" true false).2.2.1 (by decide) (by decide)).1)

/-- Claim C2: language-specific adjustments after the tier options are built.
For effective language ar the final options have no_speech_threshold 0.2,
compression_ratio_threshold 3.0 and logprob_threshold -1.2 regardless of tier;
for id, no_speech_threshold 0.3 and compression_ratio_threshold 2.8 while
logprob_threshold keeps its tier value; for every other language the tier
options are unchanged. -/
theorem c2_language_adjustments (m : String) (lang : Option String)
    (detected : String) (ha cuda : Bool) :
    (effectiveLanguage lang detected = "ar" →
      (transcribeOptions m (effectiveLanguage lang detected) ha cuda).no_speech_threshold
        = 0.2 ∧
      (transcribeOptions m (effectiveLanguage lang detected) ha cuda).compression_ratio_threshold
        = 3 ∧
      (transcribeOptions m (effectiveLanguage lang detected) ha cuda).logprob_threshold
        = -1.2) ∧
    (effectiveLanguage lang detected = "id" →
      (transcribeOptions m (effectiveLanguage lang detected) ha cuda).no_speech_threshold
        = 0.3 ∧
      (transcribeOptions m (effectiveLanguage lang detected) ha cuda).compression_ratio_threshold
        = 2.8 ∧
      (transcribeOptions m (effectiveLanguage lang detected) ha cuda).logprob_threshold
        = (buildTierOptions m (effectiveLanguage lang detected) ha cuda).logprob_threshold) ∧
    (effectiveLanguage lang detected ≠ "ar" → effectiveLanguage lang detected ≠ "id" →
      transcribeOptions m (effectiveLanguage lang detected) ha cuda
        = buildTierOptions m (effectiveLanguage lang detected) ha cuda) := by
  set L := effectiveLanguage lang detected with hL
  refine ⟨fun h => ?_, fun h => ?_, fun h1 h2 => ?_⟩
  · simp [transcribeOptions, adjustForLanguage, h]
  · have : L ≠ "ar" := by rw [h]; decide
    simp [transcribeOptions, adjustForLanguage, h, this]
  · simp [transcribeOptions, adjustForLanguage, h1, h2]

/-- Claim C2 witness at concrete inputs. -/
theorem c2_language_adjustments_witness :
    (transcribeOptions "large" (effectiveLanguage (some "ar") "en") true false).no_speech_threshold
      = 0.2 ∧
    (transcribeOptions "base" (effectiveLanguage none "id") true false).compression_ratio_threshold
      = 2.8 := by
  refine ⟨((c2_language_adjustments "large" (some "ar") "en" true false).1 (by decide)).1, ?_⟩
  exact ((c2_language_adjustments "base" none "id" true false).2.1 (by decide)).2.1

/-- Claim C3: fallback to base on an unrecognized model name. The endpoint
substitutes base for any size outside the twelve-key table, and
`_load_model` with such a size (when the library load of base succeeds, or
base is already cached) ends with `model_size = base` and `current_model`
pointing at the base model, having attempted no other name first. -/
theorem c3_base_fallback (ms : String) (loadOk : String → Bool) (st : WhisperState)
    (hms : ms ∉ modelKeys) (hbase : loadOk "base" = true) :
    validateModelSize ms = "base" ∧
    (load_model loadOk st ms).1.model_size = "base" ∧
    (load_model loadOk st ms).1.current = some "base" := by
  have hsub : (if ms ∈ modelKeys then ms else "base") = "base" := if_neg hms
  refine ⟨hsub, ?_⟩
  unfold load_model
  rw [hsub]
  by_cases hc : "base" ∈ st.loaded
  · rw [if_pos hc]; exact ⟨rfl, rfl⟩
  · rw [if_neg hc, if_pos hbase]; exact ⟨rfl, rfl⟩

/-- Claim C3 witness: the unknown size `huge` is replaced by base. -/
theorem c3_base_fallback_witness :
    validateModelSize "huge" = "base" ∧
    (load_model (fun _ => true) ⟨[], "base", none⟩ "huge").1.model_size = "base" ∧
    (load_model (fun _ => true) ⟨[], "base", none⟩ "huge").1.current = some "base" :=
  c3_base_fallback "huge" (fun _ => true) ⟨[], "base", none⟩ (by decide) rfl

/-- Claim C4: preprocessing mode selection and pipelines.
`preserve_full_audio` is true exactly when the requested language is ar or
the lowercased path contains quran or surah; the preserving pipeline is
normalize, preemphasis with coefficient 0.95, trim at top_db 10; the
aggressive pipeline is normalize, trim at top_db 20, preemphasis with the
default coefficient. -/
theorem c4_preprocessing (language : Option String) (path : String) :
    (preserveFull language path = true ↔
      language = some "ar" ∨ strContains (strLower path) "quran" = true ∨
        strContains (strLower path) "surah" = true) ∧
    preprocess_audio true = [.normalize, .preemphasis (some 0.95), .trim 10] ∧
    preprocess_audio false = [.normalize, .trim 20, .preemphasis none] := by
  refine ⟨?_, rfl, rfl⟩
  simp [preserveFull, Bool.or_eq_true, beq_iff_eq, or_assoc]

/-- Claim C4 witness: an Arabic request and a quran-named file both preserve
the full audio, while a plain English file does not. -/
theorem c4_preprocessing_witness :
    preserveFull (some "ar") "speech.wav" = true ∧
    preserveFull (some "en") "Surah_1.mp3" = true ∧
    preserveFull (some "en") "meeting.wav" = false := by
  refine ⟨?_, ?_, ?_⟩
  · exact (c4_preprocessing (some "ar") "speech.wav").1.mpr (Or.inl rfl)
  · exact (c4_preprocessing (some "en") "Surah_1.mp3").1.mpr
      (Or.inr (Or.inr (by decide)))
  · decide

/-- Claim C5: exhaustive temporary-file handling. On every exit path of the
/transcribe handler, every temp file created by mkstemp has been appended to
temp_files, and the finally block passes each element of temp_files to
safe_delete_file before the response is returned; every response is a 200,
400 or 500. -/
theorem c5_temp_file_cleanup (req : TranscribeRequest) (env : EndpointEnv) :
    (transcribe_endpoint req env).created = (transcribe_endpoint req env).temp_files ∧
    (transcribe_endpoint req env).deleted = (transcribe_endpoint req env).temp_files ∧
    ((transcribe_endpoint req env).status = 200 ∨
     (transcribe_endpoint req env).status = 400 ∨
     (transcribe_endpoint req env).status = 500) := by
  unfold transcribe_endpoint runFinally finishTranscribe
  split_ifs <;> simp

/-- Claim C6 counterexample: a /transcribe request for the small model,
served from the initial state (base loaded and current), changes the server
state — the small model is loaded into the models cache and model_size is
updated. -/
theorem c6_state_change_counterexample :
    (serverHandleTranscribe (fun _ => true)
        ⟨["base"], "base", some "base"⟩
        ⟨"a.wav", 100, "auto", "small"⟩).1 ≠
      ⟨["base"], "base", some "base"⟩ := by
  decide

/-- Claim C6 amended: handling a request does mutate the server state —
loading a not-yet-cached model appends it to the models cache and updates
model_size and current_model — and that stored data is reused: a second
request for the same model size performs no library load at all and leaves
the state unchanged. -/
theorem c6_state_caching (loadOk : String → Bool) (st : WhisperState)
    (req : TranscribeRequest)
    (h1 : req.model_size ∈ modelKeys) (h2 : req.model_size ∉ st.loaded)
    (h3 : loadOk req.model_size = true) (h4 : req.model_size ≠ st.model_size) :
    (serverHandleTranscribe loadOk st req).2 = [req.model_size] ∧
    (serverHandleTranscribe loadOk st req).1.model_size = req.model_size ∧
    req.model_size ∈ (serverHandleTranscribe loadOk st req).1.loaded ∧
    serverHandleTranscribe loadOk (serverHandleTranscribe loadOk st req).1 req
      = ((serverHandleTranscribe loadOk st req).1, []) := by
  have hval : validateModelSize req.model_size = req.model_size := if_pos h1
  have hfirst : serverHandleTranscribe loadOk st req =
      (⟨req.model_size :: st.loaded, req.model_size, some req.model_size⟩,
        [req.model_size]) := by
    unfold serverHandleTranscribe
    rw [hval, if_pos h4]
    unfold load_model
    rw [if_pos h1, if_neg h2, if_pos h3]
  rw [hfirst]
  refine ⟨rfl, rfl, List.mem_cons_self _ _, ?_⟩
  unfold serverHandleTranscribe
  rw [hval]
  simp

/-- Claim C6 amended, witness: loading small from the initial state caches
it, and a second small request reuses the cache without a library call. -/
theorem c6_state_caching_witness :
    (serverHandleTranscribe (fun _ => true) ⟨["base"], "base", some "base"⟩
        ⟨"a.wav", 100, "auto", "small"⟩).2 = ["small"] ∧
    (serverHandleTranscribe (fun _ => true) ⟨["base"], "base", some "base"⟩
        ⟨"a.wav", 100, "auto", "small"⟩).1.model_size = "small" ∧
    "small" ∈ (serverHandleTranscribe (fun _ => true) ⟨["base"], "base", some "base"⟩
        ⟨"a.wav", 100, "auto", "small"⟩).1.loaded ∧
    serverHandleTranscribe (fun _ => true)
        (serverHandleTranscribe (fun _ => true) ⟨["base"], "base", some "base"⟩
          ⟨"a.wav", 100, "auto", "small"⟩).1
        ⟨"a.wav", 100, "auto", "small"⟩
      = ((serverHandleTranscribe (fun _ => true) ⟨["base"], "base", some "base"⟩
          ⟨"a.wav", 100, "auto", "small"⟩).1, []) :=
  c6_state_caching (fun _ => true) ⟨["base"], "base", some "base"⟩
    ⟨"a.wav", 100, "auto", "small"⟩ (by decide) (by decide) rfl (by decide)

/-- The running best of the Python max scan is one of the seen pairs and
bounds every seen value. -/
lemma foldl_pickBetter_spec (ps : List (String × ℚ)) :
    ∀ p : String × ℚ,
      (ps.foldl pickBetter p = p ∨ ps.foldl pickBetter p ∈ ps) ∧
      p.2 ≤ (ps.foldl pickBetter p).2 ∧
      ∀ q ∈ ps, q.2 ≤ (ps.foldl pickBetter p).2 := by
  induction ps with
  | nil => intro p; exact ⟨Or.inl rfl, le_refl _, by simp⟩
  | cons a t ih =>
    intro p
    simp only [List.foldl_cons]
    obtain ⟨hmem, hge, hall⟩ := ih (pickBetter p a)
    have hpa1 : p.2 ≤ (pickBetter p a).2 := by
      unfold pickBetter; split_ifs with h
      · exact le_of_lt h
      · exact le_refl _
    have hpa2 : a.2 ≤ (pickBetter p a).2 := by
      unfold pickBetter; split_ifs with h
      · exact le_refl _
      · exact not_lt.mp h
    have hpam : pickBetter p a = p ∨ pickBetter p a = a := by
      unfold pickBetter; split_ifs
      · exact Or.inr rfl
      · exact Or.inl rfl
    refine ⟨?_, le_trans hpa1 hge, ?_⟩
    · rcases hmem with h | h
      · rcases hpam with h2 | h2 <;> rw [h, h2]
        · exact Or.inl rfl
        · exact Or.inr (List.mem_cons_self a t)
      · exact Or.inr (List.mem_cons_of_mem a h)
    · intro q hq
      rcases List.mem_cons.mp hq with h | h
      · rw [h]; exact le_trans hpa2 hge
      · exact hall q h

/-- Claim C7: on a nonempty probability map, detect_language returns a pair
of the map — a language with its own probability as the confidence — whose
probability bounds every probability in the map. -/
theorem c7_detect_language (probs : List (String × ℚ)) (h : probs ≠ []) :
    detect_language probs ∈ probs ∧
    ∀ q ∈ probs, q.2 ≤ (detect_language probs).2 := by
  match probs with
  | [] => exact absurd rfl h
  | p :: ps =>
    obtain ⟨hmem, hge, hall⟩ := foldl_pickBetter_spec ps p
    simp only [detect_language]
    refine ⟨?_, ?_⟩
    · rcases hmem with h2 | h2
      · rw [h2]; exact List.mem_cons_self _ _
      · exact List.mem_cons_of_mem _ h2
    · intro q hq
      rcases List.mem_cons.mp hq with h2 | h2
      · rw [h2]; exact hge
      · exact hall q h2

/-- Claim C7 witness: on a three-entry map the argmax pair is returned. -/
theorem c7_detect_language_witness :
    detect_language [("en", 0.2), ("id", 0.7), ("ar", 0.1)]
        ∈ [("en", (0.2 : ℚ)), ("id", 0.7), ("ar", 0.1)] ∧
    ∀ q ∈ [("en", (0.2 : ℚ)), ("id", 0.7), ("ar", 0.1)],
      q.2 ≤ (detect_language [("en", 0.2), ("id", 0.7), ("ar", 0.1)]).2 :=
  c7_detect_language [("en", 0.2), ("id", 0.7), ("ar", 0.1)] (by decide)

/-- Claim C8: the 25 MB upload limit. When the content length exceeds
25 * 1024 * 1024 bytes the handler answers 400 with success false and error
File too large, creates no temporary file, and never calls transcription. -/
theorem c8_size_limit (req : TranscribeRequest) (env : EndpointEnv)
    (h : req.contentSize > 25 * 1024 * 1024) :
    (transcribe_endpoint req env).status = 400 ∧
    (transcribe_endpoint req env).success = false ∧
    (transcribe_endpoint req env).error = some "File too large" ∧
    (transcribe_endpoint req env).created = [] ∧
    (transcribe_endpoint req env).transcribeCalled = false := by
  unfold transcribe_endpoint runFinally
  rw [if_pos h]
  exact ⟨rfl, rfl, rfl, rfl, rfl⟩

/-- Claim C8 witness: a 25 MB + 1 byte upload is rejected. -/
theorem c8_size_limit_witness :
    (transcribe_endpoint ⟨"a.wav", 26214401, "auto", "base"⟩
        ⟨true, true, none⟩).status = 400 ∧
    (transcribe_endpoint ⟨"a.wav", 26214401, "auto", "base"⟩
        ⟨true, true, none⟩).success = false ∧
    (transcribe_endpoint ⟨"a.wav", 26214401, "auto", "base"⟩
        ⟨true, true, none⟩).error = some "File too large" ∧
    (transcribe_endpoint ⟨"a.wav", 26214401, "auto", "base"⟩
        ⟨true, true, none⟩).created = [] ∧
    (transcribe_endpoint ⟨"a.wav", 26214401, "auto", "base"⟩
        ⟨true, true, none⟩).transcribeCalled = false :=
  c8_size_limit ⟨"a.wav", 26214401, "auto", "base"⟩ ⟨true, true, none⟩
    (by decide)

/-- Closed form of the segment aggregation fold from any accumulator. -/
lemma process_segments_general (segs : List RawSegment) :
    ∀ acc : List OutSegment × ℚ × Nat,
      segs.foldl segStep acc =
        (acc.1 ++ (segs.filter keepSegment).map mkOut,
         acc.2.1 + (((segs.filter keepSegment).map
            (fun s => s.avg_logprob.getD 0)).sum),
         acc.2.2 + (segs.filter keepSegment).length) := by
  induction segs with
  | nil => intro acc; simp
  | cons a t ih =>
    intro acc
    rw [List.foldl_cons, ih]
    by_cases h : keepSegment a
    · simp only [segStep, h, if_pos, List.filter_cons, List.map_cons, List.sum_cons,
        List.length_cons, Prod.mk.injEq]
      refine ⟨by simp, by ring_nf, by omega⟩
    · simp [segStep, h, List.filter_cons]

/-- Claim C9: segment aggregation is guarded against empty results. The
returned segments are exactly the segments with non-empty stripped text;
the count equals their number and the total their confidence sum, so
overall_confidence is the arithmetic mean when at least one segment is kept
and 0 otherwise; and the words_per_segment divisor max(count, 1) is
positive. -/
theorem c9_segment_aggregation (segs : List RawSegment) (fullText : String) :
    (process_segments segs).1 = (segs.filter keepSegment).map mkOut ∧
    (∀ o ∈ (process_segments segs).1, o.text ≠ "") ∧
    (process_segments segs).2.2 = (process_segments segs).1.length ∧
    (process_segments segs).2.1 =
      ((process_segments segs).1.map (fun o => o.confidence)).sum ∧
    ((process_segments segs).2.2 > 0 →
      overall_confidence segs =
        (process_segments segs).2.1 / ((process_segments segs).2.2 : ℚ)) ∧
    ((process_segments segs).2.2 = 0 → overall_confidence segs = 0) ∧
    words_per_segment fullText (process_segments segs).2.2 =
      (pyWordCount fullText : ℚ) /
        ((max (process_segments segs).2.2 1 : ℕ) : ℚ) ∧
    (0 : ℚ) < ((max (process_segments segs).2.2 1 : ℕ) : ℚ) := by
  have hgen := process_segments_general segs ([], 0, 0)
  have h1 : (process_segments segs).1 = (segs.filter keepSegment).map mkOut := by
    rw [process_segments, hgen]; simp
  have h2 : (process_segments segs).2.1 =
      (((segs.filter keepSegment).map (fun s => s.avg_logprob.getD 0)).sum) := by
    rw [process_segments, hgen]; simp
  have h3 : (process_segments segs).2.2 = (segs.filter keepSegment).length := by
    rw [process_segments, hgen]; simp
  refine ⟨h1, ?_, ?_, ?_, ?_, ?_, rfl, ?_⟩
  · intro o ho
    rw [h1] at ho
    obtain ⟨s, hs, rfl⟩ := List.mem_map.mp ho
    have hk : keepSegment s := (List.mem_filter.mp hs).2
    intro hempty
    rw [keepSegment, bne_iff_ne] at hk
    exact hk (by rw [mkOut] at hempty; exact hempty)
  · rw [h1, h3, List.length_map]
  · rw [h1, h2, List.map_map]
    rfl
  · intro hpos
    rw [overall_confidence]
    simp only [if_pos hpos]
  · intro hzero
    rw [overall_confidence]
    simp [hzero]
  · have : 1 ≤ max (process_segments segs).2.2 1 := le_max_right _ _
    exact_mod_cast Nat.lt_of_lt_of_le Nat.zero_lt_one this

/-- Claim C9 witness: one blank and one real segment give a single kept
segment whose confidence is the mean. -/
theorem c9_segment_aggregation_witness :
    (process_segments
        [⟨0, 1, "  ", some (-0.4), some 0.1⟩, ⟨1, 2, " hi ", some (-0.2), none⟩]).1
      = ([⟨0, 1, "  ", some (-0.4), some 0.1⟩,
          ⟨1, 2, " hi ", some (-0.2), none⟩].filter keepSegment).map mkOut ∧
    (∀ o ∈ (process_segments
        [⟨0, 1, "  ", some (-0.4), some 0.1⟩, ⟨1, 2, " hi ", some (-0.2), none⟩]).1,
       o.text ≠ "") ∧
    (process_segments
        [⟨0, 1, "  ", some (-0.4), some 0.1⟩, ⟨1, 2, " hi ", some (-0.2), none⟩]).2.2
      = (process_segments
        [⟨0, 1, "  ", some (-0.4), some 0.1⟩, ⟨1, 2, " hi ", some (-0.2), none⟩]).1.length ∧
    (process_segments
        [⟨0, 1, "  ", some (-0.4), some 0.1⟩, ⟨1, 2, " hi ", some (-0.2), none⟩]).2.1
      = ((process_segments
        [⟨0, 1, "  ", some (-0.4), some 0.1⟩, ⟨1, 2, " hi ", some (-0.2), none⟩]).1.map
          (fun o => o.confidence)).sum ∧
    ((process_segments
        [⟨0, 1, "  ", some (-0.4), some 0.1⟩, ⟨1, 2, " hi ", some (-0.2), none⟩]).2.2 > 0 →
      overall_confidence
        [⟨0, 1, "  ", some (-0.4), some 0.1⟩, ⟨1, 2, " hi ", some (-0.2), none⟩]
        = (process_segments
            [⟨0, 1, "  ", some (-0.4), some 0.1⟩, ⟨1, 2, " hi ", some (-0.2), none⟩]).2.1
          / ((process_segments
            [⟨0, 1, "  ", some (-0.4), some 0.1⟩, ⟨1, 2, " hi ", some (-0.2), none⟩]).2.2 : ℚ)) ∧
    ((process_segments
        [⟨0, 1, "  ", some (-0.4), some 0.1⟩, ⟨1, 2, " hi ", some (-0.2), none⟩]).2.2 = 0 →
      overall_confidence
        [⟨0, 1, "  ", some (-0.4), some 0.1⟩, ⟨1, 2, " hi ", some (-0.2), none⟩] = 0) ∧
    words_per_segment "hello world"
        (process_segments
          [⟨0, 1, "  ", some (-0.4), some 0.1⟩, ⟨1, 2, " hi ", some (-0.2), none⟩]).2.2
      = (pyWordCount "hello world" : ℚ)
        / ((max (process_segments
            [⟨0, 1, "  ", some (-0.4), some 0.1⟩, ⟨1, 2, " hi ", some (-0.2), none⟩]).2.2 1 : ℕ) : ℚ) ∧
    (0 : ℚ) < ((max (process_segments
        [⟨0, 1, "  ", some (-0.4), some 0.1⟩, ⟨1, 2, " hi ", some (-0.2), none⟩]).2.2 1 : ℕ) : ℚ) :=
  c9_segment_aggregation
    [⟨0, 1, "  ", some (-0.4), some 0.1⟩, ⟨1, 2, " hi ", some (-0.2), none⟩]
    "hello world"

/-- Explicit closed form of the classifier, with the thresholds resolved. -/
lemma get_confidence_level_eq (c : ℚ) :
    get_confidence_level c =
      if c ≥ 0.8 then "high"
      else if c ≥ 0.6 then "medium"
      else if c ≥ 0.4 then "low"
      else "very_low" := by
  have hh : thresholdOf "high" = 0.8 := rfl
  have hm : thresholdOf "medium" = 0.6 := rfl
  have hl : thresholdOf "low" = 0.4 := rfl
  rw [get_confidence_level, hh, hm, hl]

/-- Claim C10: _get_confidence_level is a total monotone classifier. Every
confidence receives exactly one of the four levels; the level is high iff
confidence >= 0.8, medium iff 0.6 <= confidence < 0.8, low iff
0.4 <= confidence < 0.6, and very_low iff confidence < 0.4; and a larger
confidence never receives a strictly lower level. -/
theorem c10_confidence_level (c c1 c2 : ℚ) (h : c1 ≤ c2) :
    (get_confidence_level c = "high" ∨ get_confidence_level c = "medium" ∨
     get_confidence_level c = "low" ∨ get_confidence_level c = "very_low") ∧
    (get_confidence_level c = "high" ↔ 0.8 ≤ c) ∧
    (get_confidence_level c = "medium" ↔ 0.6 ≤ c ∧ c < 0.8) ∧
    (get_confidence_level c = "low" ↔ 0.4 ≤ c ∧ c < 0.6) ∧
    (get_confidence_level c = "very_low" ↔ c < 0.4) ∧
    levelRank (get_confidence_level c1) ≤ levelRank (get_confidence_level c2) := by
  refine ⟨?_, ?_, ?_, ?_, ?_, ?_⟩
  · rw [get_confidence_level_eq]
    split_ifs <;> simp
  · rw [get_confidence_level_eq]
    split_ifs with h1 h2 h3
    · exact iff_of_true rfl h1
    · exact iff_of_false (by decide) h1
    · exact iff_of_false (by decide) h1
    · exact iff_of_false (by decide) h1
  · rw [get_confidence_level_eq]
    split_ifs with h1 h2 h3
    · exact iff_of_false (by decide) (fun hr => absurd hr.2 (not_lt.mpr h1))
    · exact iff_of_true rfl ⟨h2, not_le.mp h1⟩
    · exact iff_of_false (by decide) (fun hr => h2 hr.1)
    · exact iff_of_false (by decide) (fun hr => h2 hr.1)
  · rw [get_confidence_level_eq]
    split_ifs with h1 h2 h3
    · exact iff_of_false (by decide)
        (fun hr => absurd hr.2 (not_lt.mpr (le_trans (by norm_num) h1)))
    · exact iff_of_false (by decide)
        (fun hr => absurd hr.2 (not_lt.mpr h2))
    · exact iff_of_true rfl ⟨h3, not_le.mp h2⟩
    · exact iff_of_false (by decide) (fun hr => h3 hr.1)
  · rw [get_confidence_level_eq]
    split_ifs with h1 h2 h3
    · exact iff_of_false (by decide)
        (not_lt.mpr (le_trans (by norm_num) h1))
    · exact iff_of_false (by decide)
        (not_lt.mpr (le_trans (by norm_num) h2))
    · exact iff_of_false (by decide) (not_lt.mpr h3)
    · exact iff_of_true rfl (not_le.mp h3)
  · rw [get_confidence_level_eq c1, get_confidence_level_eq c2]
    split_ifs <;> first
      | decide
      | (exfalso; linarith)

/-- Claim C10 witness at 0.75, 0.5 and 0.65. -/
theorem c10_confidence_level_witness :
    (get_confidence_level 0.75 = "high" ∨ get_confidence_level 0.75 = "medium" ∨
     get_confidence_level 0.75 = "low" ∨ get_confidence_level 0.75 = "very_low") ∧
    (get_confidence_level 0.75 = "high" ↔ (0.8 : ℚ) ≤ 0.75) ∧
    (get_confidence_level 0.75 = "medium" ↔ (0.6 : ℚ) ≤ 0.75 ∧ (0.75 : ℚ) < 0.8) ∧
    (get_confidence_level 0.75 = "low" ↔ (0.4 : ℚ) ≤ 0.75 ∧ (0.75 : ℚ) < 0.6) ∧
    (get_confidence_level 0.75 = "very_low" ↔ (0.75 : ℚ) < 0.4) ∧
    levelRank (get_confidence_level 0.5) ≤ levelRank (get_confidence_level 0.65) :=
  c10_confidence_level 0.75 0.5 0.65 (by norm_num)

end WhisperServer
